import Mathlib

/-!
Verification development for the association-document compiler
(`agent/association/parser/parser.go`) and the inventory orchestrator
(`agent/inventory/inventory.go`) of the amazon-ssm-agent repository.

The Go code is shallowly embedded: Go maps become association lists with
first-match lookup, Go slices become lists, the panic of an out-of-bounds
index becomes an `Option` result, and the only in-place mutation performed
by the compiler (the write to `rawData.DocumentID`) is made explicit by
returning the updated record.  External collaborators (the JSON decoder,
the parameter-substitution pass, the uploader's converter, the clock) are
passed as parameters or modelled from the specification, as noted on each
definition.
-/

/-- Association-list lookup with first-match semantics; the embedding of a
Go map read `m[k]` together with its `ok` flag (`none` = key absent). -/
def lookupAL {α : Type} : List (String × α) → String → Option α
  | [], _ => none
  | (k, v) :: rest, key => if k = key then some v else lookupAL rest key

/-- Modelled from the spec: path-join semantics of Go `path.Join` /
`filepath.Join` (empty elements are ignored, remaining elements are joined
with a single separator). -/
def joinPath (elems : List String) : String :=
  String.intercalate "/" (elems.filter (fun e => e ≠ ""))

/-- Modelled from the spec: `fileutil.BuildS3Path` joins the root with one
further path segment (spec §4.2 step 6: the plugin name is the final path
segment of the per-plugin output key). -/
def BuildS3Path (root el : String) : String :=
  joinPath [root, el]

/-- Modelled from the spec: `fileutil.BuildPath` joins the orchestration
root with one further path segment. -/
def BuildPath (root el : String) : String :=
  joinPath [root, el]

/-- Exactly `w` low-order decimal digits of `n`, most significant first;
the char-list core of a zero-padded fixed-width numeric field. -/
def padDigitsAux : Nat → Nat → List Char
  | 0, _ => []
  | w + 1, n => padDigitsAux w (n / 10) ++ [Nat.digitChar (n % 10)]

/-- A wall-clock reading, as produced by the external `times.DefaultClock`. -/
structure GoTime where
  year : Nat
  month : Nat
  day : Nat
  hour : Nat
  minute : Nat
  second : Nat
  millis : Nat
deriving DecidableEq

/-- Modelled from the spec: `times.ToIsoDashUTC` (not under `src/`), the
fixed-width ISO-8601 UTC timestamp with dashes in the time part, layout
`YYYY-MM-DDTHH-MM-SS.mmmZ`. -/
def ToIsoDashUTC (t : GoTime) : String :=
  String.mk (padDigitsAux 4 t.year ++ '-' :: padDigitsAux 2 t.month ++
    '-' :: padDigitsAux 2 t.day ++ 'T' :: padDigitsAux 2 t.hour ++
    '-' :: padDigitsAux 2 t.minute ++ '-' :: padDigitsAux 2 t.second ++
    '.' :: padDigitsAux 3 t.millis ++ ['Z'])

/-- Modelled from the spec: `times.ToIso8601UTC` (not under `src/`), the
fixed-width ISO-8601 UTC timestamp, layout `YYYY-MM-DDTHH:MM:SS.mmmZ`. -/
def ToIso8601UTC (t : GoTime) : String :=
  String.mk (padDigitsAux 4 t.year ++ '-' :: padDigitsAux 2 t.month ++
    '-' :: padDigitsAux 2 t.day ++ 'T' :: padDigitsAux 2 t.hour ++
    ':' :: padDigitsAux 2 t.minute ++ ':' :: padDigitsAux 2 t.second ++
    '.' :: padDigitsAux 3 t.millis ++ ['Z'])

/-! ## Inventory orchestrator (`agent/inventory/inventory.go`) -/

/-- A collected inventory item, identified with its serialized form (the
orchestrator treats the payload as opaque and only ever measures its
serialized size, `inventory.go` lines 205-206). -/
abbrev InvItem := String

/-- An inventory policy: gatherer name to opaque sub-policy, the embedding
of the Go map `Policy.InventoryPolicy` (`map[string]model.Config`). -/
abbrev InvPolicy := List (String × String)

/-- A gatherer capability: given its sub-policy it produces an item or an
execution error (`gatherer.Run`, an external implementation behind the
registry contract). -/
abbrev Gatherer := String → Except String InvItem

/-- The gatherer registry (`gatherers.Registry`), a read-only Go map. -/
abbrev GathererRegistry := List (String × Gatherer)

/-- The three fatal inventory-cycle errors produced by
`VerifyAndRunGatherers` (`inventory.go` lines 175, 182, 189). -/
inductive InvError where
  | unregisteredGatherer (name : String)
  | gathererFailed (name : String) (cause : String)
  | sizeLimitExceeded
deriving DecidableEq

/-- Serialized form of an item batch: Go `fmt.Sprintf` of a slice prints
the elements space-separated between brackets (`inventory.go` line 206). -/
def batchSerialized (items : List InvItem) : String :=
  "[" ++ String.intercalate " " items ++ "]"

/-- Embedding of `Plugin.VerifyInventoryDataSize` (`inventory.go` lines
201-213): true iff the just-added item is within the per-item limit and
the whole batch is within the aggregate limit.  The limits (external
constants `SizeLimitKBPerInventoryType` and `TotalSizeLimitKB`, expressed
in kilobytes) are taken as parameters; the float comparison
`size/1000 > limitKB` is modelled exactly as `1000 * limitKB < size`. -/
def VerifyInventoryDataSize (perItemKB totalKB : Nat) (item : InvItem)
    (items : List InvItem) : Bool :=
  !(1000 * perItemKB < item.length || 1000 * totalKB < (batchSerialized items).length)

/-- Result of one inventory collection run: the returned item slice, the
returned error, and the trace of gatherer names whose `Run` was invoked. -/
structure RunResult where
  items : List InvItem
  err : Option InvError
  trace : List String
deriving DecidableEq

/-- The loop body of `VerifyAndRunGatherers` (`inventory.go` lines
172-194).  `order` is the sequence in which Go's `range` over the policy
map yields the keys (an arbitrary permutation of the key set); `items`
accumulates the named return value.  On any failure the loop breaks and
the function returns the accumulated `items` together with the error. -/
def runGatherers (reg : GathererRegistry) (pol : InvPolicy)
    (perItemKB totalKB : Nat) :
    List String → List InvItem → List String → RunResult
  | [], items, tr => ⟨items, none, tr⟩
  | name :: rest, items, tr =>
    match lookupAL reg name with
    | none => ⟨items, some (.unregisteredGatherer name), tr⟩
    | some g =>
      match g ((lookupAL pol name).getD "") with
      | .error cause => ⟨items, some (.gathererFailed name cause), tr ++ [name]⟩
      | .ok item =>
        let items2 := items ++ [item]
        if VerifyInventoryDataSize perItemKB totalKB item items2 then
          runGatherers reg pol perItemKB totalKB rest items2 (tr ++ [name])
        else
          ⟨items2, some .sizeLimitExceeded, tr ++ [name]⟩

/-- Embedding of `Plugin.VerifyAndRunGatherers` (`inventory.go` lines
159-197), starting from an empty batch. -/
def VerifyAndRunGatherers (reg : GathererRegistry) (pol : InvPolicy)
    (perItemKB totalKB : Nat) (order : List String) : RunResult :=
  runGatherers reg pol perItemKB totalKB order [] []

/-- The item contributed by invoking the named gatherer with its
sub-policy: its result on success, nothing on an execution error (used to
state what the returned batch holds after a run). -/
def invokeResult (reg : GathererRegistry) (pol : InvPolicy) (name : String) :
    Option InvItem :=
  match lookupAL reg name with
  | none => none
  | some g =>
    match g ((lookupAL pol name).getD "") with
    | .error _ => none
    | .ok item => some item

/-- The state of the on-disk policy document as seen by
`ApplyInventoryPolicy`: absent (`fileutil.Exists` false), unreadable
(`fileutil.ReadAllText` fails), undecodable (`json.Unmarshal` fails), or a
decoded policy. -/
inductive PolicyDoc where
  | absent
  | readError
  | decodeError
  | ok (pol : InvPolicy)

/-- An observable call made by `ApplyInventoryPolicy` on the external
uploader. -/
inductive UploadAction where
  | sendDataToSSM (items : List String)
deriving DecidableEq

/-- Embedding of `Plugin.ApplyInventoryPolicy` (`inventory.go` lines
106-154), returning the trace of uploader calls.  `convert` is the
external `uploader.ConvertToSsmInventoryItems`; on a conversion error the
code logs and falls through, so `SendDataToSSM` is still called with the
zero-valued (`nil`) item slice (lines 138-142). -/
def ApplyInventoryPolicy (reg : GathererRegistry) (doc : PolicyDoc)
    (perItemKB totalKB : Nat) (order : List String)
    (convert : List InvItem → Except String (List String)) : List UploadAction :=
  match doc with
  | .absent => []
  | .readError => []
  | .decodeError => []
  | .ok pol =>
    let r := VerifyAndRunGatherers reg pol perItemKB totalKB order
    match r.err with
    | some _ => []
    | none =>
      let inventoryItems :=
        match convert r.items with
        | .error _ => []
        | .ok xs => xs
      [.sendDataToSSM inventoryItems]

/-! ## Association document compiler (`agent/association/parser/parser.go`) -/

/-- Modelled from the spec: the constant `contracts.ParamTypeString`
(declared scalar-string parameter type, not under `src/`). -/
def ParamTypeString : String := "String"

/-- Modelled from the spec: the constant `contracts.ParamTypeStringList`
(declared string-list parameter type, not under `src/`). -/
def ParamTypeStringList : String := "StringList"

/-- A declared parameter (`contracts.Parameter`): its declared type and
its default value; the default is an opaque JSON value, modelled by its
serialized text. -/
structure Parameter where
  paramType : String
  defaultVal : String
deriving DecidableEq

/-- A resolved parameter binding as stored into the
`map[string]interface{}` result of `parseParameters`: the first supplied
value for a scalar parameter, the full supplied list for a list parameter,
or a document default inserted by the default-filling loop. -/
inductive ParamValue where
  | scalar (v : String)
  | strList (vs : List String)
  | dflt (v : String)
deriving DecidableEq

/-- Embedding of `parseParameters` (`parser.go` lines 138-155).  Supplied
parameters declared with type `String` contribute their first value — the
Go code indexes `param[0]` without a bounds check, so an empty supplied
value list makes the function panic, modelled as `none`.  Supplied
parameters declared with type `StringList` contribute the whole list; a
declared parameter of any other type is skipped (debug log only), and a
supplied parameter with no declaration is skipped before any indexing. -/
def parseParameters : List (String × List String) → List (String × Parameter) →
    Option (List (String × ParamValue))
  | [], _ => some []
  | (name, vals) :: rest, paramsDef =>
    match lookupAL paramsDef name with
    | none => parseParameters rest paramsDef
    | some definition =>
      if definition.paramType = ParamTypeString then
        match vals with
        | [] => none
        | v :: _ => (parseParameters rest paramsDef).map (fun ps => (name, .scalar v) :: ps)
      else if definition.paramType = ParamTypeStringList then
        (parseParameters rest paramsDef).map (fun ps => (name, .strList vals) :: ps)
      else
        parseParameters rest paramsDef

/-- Embedding of the default-filling loop of `ParseDocumentWithParams`
(`parser.go` lines 76-80): for every declared parameter with no binding
yet, its default value is inserted. -/
def addDefaults (valid : List (String × ParamValue)) :
    List (String × Parameter) → List (String × ParamValue)
  | [] => valid
  | (k, v) :: rest =>
    if (lookupAL valid k).isSome then addDefaults valid rest
    else addDefaults (valid ++ [(k, ParamValue.dflt v.defaultVal)]) rest

/-- The parameter-binding table handed to substitution (`parser.go` lines
65 and 74-80): `parseParameters` followed by default filling.  The
intervening external call `parameters.ValidParameters` is modelled from
the spec as the identity (spec §3: the table takes the supplied values
whose declared type matched, then the defaults). -/
def resolveParams (supplied : List (String × List String))
    (paramsDef : List (String × Parameter)) : Option (List (String × ParamValue)) :=
  (parseParameters supplied paramsDef).map (fun ps => addDefaults ps paramsDef)

/-- A single step of `mainSteps` (`contracts.InstancePluginConfig`):
its action, declared name, and opaque settings/inputs. -/
structure InstancePluginConfig where
  action : String
  name : String
  settings : String
  inputs : String
deriving DecidableEq

/-- A single entry of `runtimeConfig` (`contracts.PluginConfig`):
opaque settings and properties. -/
structure PluginConfig where
  settings : String
  properties : String
deriving DecidableEq

/-- The decoded document body (`contracts.DocumentContent`): schema
version, the legacy name-keyed `runtimeConfig`, the ordered `mainSteps`,
and the declared parameters.  `Option` distinguishes a `nil` Go
map/slice from an empty one. -/
structure DocumentContent where
  schemaVersion : String
  runtimeConfig : Option (List (String × PluginConfig))
  mainSteps : Option (List InstancePluginConfig)
  parameters : List (String × Parameter)
deriving DecidableEq

/-- The S3 output location carried by the association
(`ssm.S3OutputLocation`); pointer fields become `Option`. -/
structure S3OutputLocation where
  outputS3KeyPrefixOpt : Option String
  outputS3BucketNameOpt : Option String
deriving DecidableEq

/-- The association's optional output location
(`ssm.InstanceAssociationOutputLocation`). -/
structure OutputLocation where
  s3Location : Option S3OutputLocation
deriving DecidableEq

/-- The server-issued association summary (`ssm.InstanceAssociationSummary`),
restricted to the fields the compiler reads. -/
structure AssociationSummary where
  name : String
  associationId : String
  instanceId : String
  outputLocation : Option OutputLocation
  parameters : List (String × List String)
deriving DecidableEq

/-- The raw association message (`model.InstanceAssociation`): the
externally supplied fields plus the `DocumentID` bookkeeping field that
`newDocumentInfo` writes (`parser.go` line 127). -/
structure InstanceAssociation where
  documentID : String
  createDate : GoTime
  runOnce : Bool
  document : String
  association : AssociationSummary
deriving DecidableEq

/-- The payload produced by `ParseDocumentWithParams`
(`messageContracts.SendCommandPayload`), restricted to the fields the
compiler writes and later reads. -/
structure SendCommandPayload where
  documentContent : DocumentContent
  documentName : String
  commandID : String
  outputS3BucketName : String
  outputS3KeyPrefixVal : String
  parameters : List (String × ParamValue)
deriving DecidableEq

/-- Outcome of a Go call that can panic, return an error, or succeed. -/
inductive GoResult (α : Type) where
  | panic
  | goError (msg : String)
  | ok (a : α)
deriving DecidableEq

/-- Embedding of `ParseDocumentWithParams` (`parser.go` lines 38-87).
External collaborators are parameters: `decodeDoc` is `json.Unmarshal`
into `DocumentContent` (`none` = decode failure, returned as an error),
and `replace` is `messageParser.ReplacePluginParameters`, the
substitution pass applied with the resolved binding table.  The function
only reads `rawData`; the `jsonutil.Marshal` calls used for logging are
omitted.  A panic of `parseParameters` (empty supplied value list for a
scalar parameter) propagates. -/
def ParseDocumentWithParams (rawData : InstanceAssociation)
    (decodeDoc : String → Option DocumentContent)
    (replace : SendCommandPayload → List (String × ParamValue) →
      Except String SendCommandPayload) : GoResult SendCommandPayload :=
  match decodeDoc rawData.document with
  | none => .goError "unmarshal failed"
  | some content =>
    let keyPfx :=
      match rawData.association.outputLocation with
      | none => ""
      | some ol =>
        match ol.s3Location with
        | none => ""
        | some s3 => s3.outputS3KeyPrefixOpt.getD ""
    let bucket :=
      match rawData.association.outputLocation with
      | none => ""
      | some ol =>
        match ol.s3Location with
        | none => ""
        | some s3 => s3.outputS3BucketNameOpt.getD ""
    match parseParameters rawData.association.parameters content.parameters with
    | none => .panic
    | some ps =>
      let payload : SendCommandPayload :=
        { documentContent := content
          documentName := rawData.association.name
          commandID := rawData.association.associationId
          outputS3BucketName := bucket
          outputS3KeyPrefixVal := keyPfx
          parameters := ps }
      match replace payload (addDefaults ps content.parameters) with
      | .error e => .goError e
      | .ok payload2 => .ok payload2

/-- The generated document information (`stateModel.DocumentInfo`). -/
structure DocumentInfo where
  associationID : String
  instanceID : String
  messageID : String
  runID : String
  documentID : String
  createdDate : String
  documentName : String
  isCommand : Bool
  documentStatus : String
  runOnce : Bool
  documentTraceOutput : String
deriving DecidableEq

/-- Per-plugin configuration (`contracts.Configuration`), restricted to
the fields the compiler sets.  The source field `OutputS3KeyPrefix` is
rendered here as `outputS3KeyPrefixVal`. -/
structure Configuration where
  settings : String
  properties : String
  outputS3BucketName : String
  outputS3KeyPrefixVal : String
  orchestrationDirectory : String
  messageId : String
  bookKeepingFileName : String
deriving DecidableEq

/-- One plugin execution unit (`stateModel.PluginState`). -/
structure PluginState where
  configuration : Configuration
  hasExecuted : Bool
  id : String
  name : String
deriving DecidableEq

/-- The compiled document state (`stateModel.DocumentState`): both plugin
collections exist as fields (a Go map and a Go slice), each zero-valued
unless `buildPluginsInfo` populates it. -/
structure DocumentState where
  documentInformation : DocumentInfo
  documentType : String
  schemaVersion : String
  pluginsInformation : List (String × PluginState)
  instancePluginsInformation : List PluginState
deriving DecidableEq

/-- Go's emptiness test `m != nil && len(m) != 0` on a nilable
collection. -/
def hasEntries {α : Type} : Option (List α) → Bool
  | none => false
  | some l => !l.isEmpty

/-- The document id of `parser.go` line 126: association id, a dot, and
the ISO-dash run timestamp. -/
def generateDocumentId (assocId runId : String) : String :=
  assocId ++ "." ++ runId

/-- Embedding of `newDocumentInfo` (`parser.go` lines 118-136).  `now` is
the external clock reading (`times.DefaultClock.Now()`), taken once.  The
write `rawData.DocumentID = documentInfo.DocumentID` (line 127) is made
explicit by returning the updated association record alongside the
document information. -/
def newDocumentInfo (rawData : InstanceAssociation)
    (payload : SendCommandPayload) (now : GoTime) :
    DocumentInfo × InstanceAssociation :=
  let assocID := rawData.association.associationId
  let instID := rawData.association.instanceId
  let runID := ToIsoDashUTC now
  let docID := generateDocumentId assocID runID
  (⟨assocID, instID, "aws.ssm." ++ assocID ++ "." ++ instID, runID, docID,
    ToIso8601UTC rawData.createDate, payload.documentName, false,
    "InProgress", rawData.runOnce, ""⟩,
   { rawData with documentID := docID })

/-- Embedding of `buildPluginsInfo` (`parser.go` lines 158-229): if
`runtimeConfig` is present and non-empty, build the name-keyed map of
plugin states (key serves as both id and name); else if `mainSteps` is
present and non-empty, build the ordered slice (step name is the id, step
action is the name and the final path segment); else leave the state
untouched. -/
def buildPluginsInfo (payload : SendCommandPayload)
    (documentInfo : DocumentInfo) (s3KeyPfx orchestrationDir : String)
    (docState : DocumentState) : DocumentState :=
  if hasEntries payload.documentContent.runtimeConfig then
    let rc := payload.documentContent.runtimeConfig.getD []
    let pluginsInfo := rc.map (fun p =>
      (p.1, ({ configuration := { settings := p.2.settings,
                                  properties := p.2.properties,
                                  outputS3BucketName := payload.outputS3BucketName,
                                  outputS3KeyPrefixVal := BuildS3Path s3KeyPfx p.1,
                                  orchestrationDirectory := BuildPath orchestrationDir p.1,
                                  messageId := documentInfo.messageID,
                                  bookKeepingFileName := documentInfo.documentID },
               hasExecuted := false,
               id := p.1,
               name := p.1 } : PluginState)))
    { docState with pluginsInformation := pluginsInfo }
  else if hasEntries payload.documentContent.mainSteps then
    let ms := payload.documentContent.mainSteps.getD []
    let instancePluginsInfo := ms.map (fun step =>
      ({ configuration := { settings := step.settings,
                            properties := step.inputs,
                            outputS3BucketName := payload.outputS3BucketName,
                            outputS3KeyPrefixVal := BuildS3Path s3KeyPfx step.action,
                            orchestrationDirectory := BuildPath orchestrationDir step.action,
                            messageId := documentInfo.messageID,
                            bookKeepingFileName := documentInfo.documentID },
         hasExecuted := false,
         id := step.name,
         name := step.action } : PluginState))
    { docState with instancePluginsInformation := instancePluginsInfo }
  else
    docState

/-- The configuration values `InitializeDocumentState` reads from
`appconfig` and the agent context (external constants). -/
structure AgentConfig where
  defaultDataStorePath : String
  defaultDocumentRootDirName : String
  orchestrationRootDirName : String
deriving DecidableEq

/-- Embedding of `InitializeDocumentState` (`parser.go` lines 90-115).
The document-level S3 key prefix joins the caller's key prefix, the
command id (= association id, set at line 54) and the instance id (line
97); the write to `rawData.DocumentID` performed inside `newDocumentInfo`
is surfaced in the second component. -/
def InitializeDocumentState (cfg : AgentConfig)
    (payload : SendCommandPayload) (rawData : InstanceAssociation)
    (now : GoTime) : DocumentState × InstanceAssociation :=
  let pr := newDocumentInfo rawData payload now
  let documentInfo := pr.1
  let s3KeyPfx := joinPath [payload.outputS3KeyPrefixVal, payload.commandID,
    documentInfo.instanceID]
  let orchestrationRootDir := joinPath [cfg.defaultDataStorePath,
    documentInfo.instanceID, cfg.defaultDocumentRootDirName,
    cfg.orchestrationRootDirName]
  let orchestrationDir := joinPath [orchestrationRootDir, documentInfo.documentID]
  let docState : DocumentState :=
    { documentInformation := documentInfo
      documentType := "Association"
      schemaVersion := payload.documentContent.schemaVersion
      pluginsInformation := []
      instancePluginsInformation := [] }
  (buildPluginsInfo payload documentInfo s3KeyPfx orchestrationDir docState, pr.2)

/-! ## Concrete fixtures used by witnesses and counterexamples -/

/-- A fixed clock reading used for concrete runs. -/
def tA : GoTime := ⟨2016, 1, 2, 3, 4, 5, 6⟩

/-- The single step of the spec's §8 scenario document. -/
def stepA : InstancePluginConfig := ⟨"aws:runShellScript", "step1", "", ""⟩

/-- The decoded scenario document: one main step, no runtime config. -/
def contentA : DocumentContent := ⟨"2.0", none, some [stepA], []⟩

/-- The scenario association summary: association `assoc-1` on instance
`i-1` with output bucket `b` and key prefix `p`. -/
def assocA : AssociationSummary :=
  ⟨"AWS-RunShellScript", "assoc-1", "i-1", some ⟨some ⟨some "p", some "b"⟩⟩, []⟩

/-- The scenario raw association message as received. -/
def rawA : InstanceAssociation := ⟨"", tA, false, "doc-body", assocA⟩

/-- The payload `ParseDocumentWithParams` produces for the scenario. -/
def payloadA : SendCommandPayload :=
  ⟨contentA, "AWS-RunShellScript", "assoc-1", "b", "p", []⟩

/-- A concrete agent configuration. -/
def cfgA : AgentConfig := ⟨"/var/lib/amazon/ssm", "document", "orchestration"⟩

/-- A gatherer that succeeds with a two-byte item. -/
def gOkA : Gatherer := fun _ => .ok "xx"

/-- A second gatherer that succeeds with a two-byte item. -/
def gOkB : Gatherer := fun _ => .ok "yy"

/-- A registry in which only gatherer `a` is registered. -/
def regA : GathererRegistry := [("a", gOkA)]

/-- A registry in which gatherers `a` and `b` are both registered. -/
def regB : GathererRegistry := [("a", gOkA), ("b", gOkB)]

/-- A two-gatherer inventory policy naming `a` and `b`. -/
def polA : InvPolicy := [("a", "sub-a"), ("b", "sub-b")]

/-- A gatherer returning a 600-byte item: one such item fits a 1 KB
aggregate limit, two together exceed it. -/
def gBigA : Gatherer := fun _ => .ok (String.mk (List.replicate 600 'a'))

/-- A second gatherer returning a 600-byte item. -/
def gBigB : Gatherer := fun _ => .ok (String.mk (List.replicate 600 'b'))

/-- A registry in which the two 600-byte gatherers are registered. -/
def regBig : GathererRegistry := [("a", gBigA), ("b", gBigB)]

/-! ## Claim C1 -/

set_option maxRecDepth 8192 in
/-- C1 counterexample: the returned batch on an error is not empty. With
only `a` registered, `VerifyAndRunGatherers` returns the
unregistered-gatherer error together with the item already collected from
`a`; and with two registered 600-byte gatherers under a 1 KB aggregate
limit, the second item pushes the batch over the limit and the function
returns the size-limit error together with both items — the just-appended
oversized batch included, not an empty slice. -/
theorem claim_C1_counterexample :
    (["a", "b"] : List String).Perm (polA.map Prod.fst) ∧
    (VerifyAndRunGatherers regA polA 1 1 ["a", "b"]).err =
      some (.unregisteredGatherer "b") ∧
    (VerifyAndRunGatherers regA polA 1 1 ["a", "b"]).items = ["xx"] ∧
    (VerifyAndRunGatherers regA polA 1 1 ["a", "b"]).items ≠ [] ∧
    (VerifyAndRunGatherers regBig polA 1 1 ["a", "b"]).err =
      some InvError.sizeLimitExceeded ∧
    (VerifyAndRunGatherers regBig polA 1 1 ["a", "b"]).items.length = 2 ∧
    (VerifyAndRunGatherers regBig polA 1 1 ["a", "b"]).items ≠ [] := by
  decide

/-- Helper: the gatherer loop returns, error or not, the accumulated
items extended by exactly the successful results of the gatherers it
invoked, in invocation order. -/
theorem runGatherers_items_invoked (reg : GathererRegistry) (pol : InvPolicy)
    (perItemKB totalKB : Nat) :
    ∀ (order : List String) (items : List InvItem) (tr : List String),
      ∃ p, (runGatherers reg pol perItemKB totalKB order items tr).trace = tr ++ p ∧
        (runGatherers reg pol perItemKB totalKB order items tr).items =
          items ++ p.filterMap (invokeResult reg pol) ∧
        p <+: order := by
  intro order
  induction order with
  | nil =>
    intro items tr
    exact ⟨[], by simp [runGatherers], by simp [runGatherers], ⟨[], rfl⟩⟩
  | cons name rest ih =>
    intro items tr
    simp only [runGatherers]
    cases hg : lookupAL reg name with
    | none => exact ⟨[], by simp, by simp, ⟨name :: rest, rfl⟩⟩
    | some g =>
      cases hr : g ((lookupAL pol name).getD "") with
      | error cause =>
        refine ⟨[name], by simp [hr], ?_, ⟨rest, rfl⟩⟩
        simp [hr, invokeResult, hg]
      | ok item =>
        cases hv : VerifyInventoryDataSize perItemKB totalKB item (items ++ [item]) with
        | false =>
          refine ⟨[name], by simp [hr, hv], ?_, ⟨rest, rfl⟩⟩
          simp [hr, hv, invokeResult, hg]
        | true =>
          obtain ⟨p, hp, hi, hpfx⟩ := ih (items ++ [item]) (tr ++ [name])
          refine ⟨name :: p, by simp [hr, hv, hp], ?_, ?_⟩
          · simp [hr, hv, hi, invokeResult, hg]
          · obtain ⟨t, ht⟩ := hpfx
            exact ⟨t, by simp [← ht]⟩

/-- Helper: when the loop stops on the size check, the returned batch
ends with the just-appended offending item, and the size verification of
the returned batch fails. -/
theorem runGatherers_sizeLimit (reg : GathererRegistry) (pol : InvPolicy)
    (perItemKB totalKB : Nat) :
    ∀ (order : List String) (items : List InvItem) (tr : List String),
      (runGatherers reg pol perItemKB totalKB order items tr).err =
        some InvError.sizeLimitExceeded →
      ∃ rest item,
        (runGatherers reg pol perItemKB totalKB order items tr).items =
          rest ++ [item] ∧
        VerifyInventoryDataSize perItemKB totalKB item
          ((runGatherers reg pol perItemKB totalKB order items tr).items) = false := by
  intro order
  induction order with
  | nil =>
    intro items tr h
    simp [runGatherers] at h
  | cons name rest ih =>
    intro items tr h
    simp only [runGatherers] at h ⊢
    cases hg : lookupAL reg name with
    | none => simp [hg] at h
    | some g =>
      cases hr : g ((lookupAL pol name).getD "") with
      | error cause => simp [hg, hr] at h
      | ok item =>
        cases hv : VerifyInventoryDataSize perItemKB totalKB item (items ++ [item]) with
        | true =>
          obtain ⟨r0, i0, hi, hsz⟩ :=
            ih (items ++ [item]) (tr ++ [name]) (by simpa [hg, hr, hv] using h)
          rw [hi] at hsz
          refine ⟨r0, i0, ?_, ?_⟩ <;> simp [hg, hr, hv, hi, hsz]
        | false =>
          refine ⟨items, item, ?_, ?_⟩ <;> simp [hg, hr, hv]

/-- C1 (amended): whenever `VerifyAndRunGatherers` returns an error, the
returned slice still holds the items appended before the failure — it
always equals the successful results of the gatherers invoked so far, in
invocation order; in the size-limit case it ends with the just-appended
offending item, on which the size verification fails; the all-or-nothing
policy is enforced by the caller: `ApplyInventoryPolicy` drops the batch
and performs no uploader call when an error comes back. -/
theorem claim_C1_amended (reg : GathererRegistry) (pol : InvPolicy)
    (perItemKB totalKB : Nat) (order : List String)
    (convert : List InvItem → Except String (List String)) :
    ((VerifyAndRunGatherers reg pol perItemKB totalKB order).items =
      (VerifyAndRunGatherers reg pol perItemKB totalKB order).trace.filterMap
        (invokeResult reg pol)) ∧
    ((VerifyAndRunGatherers reg pol perItemKB totalKB order).err =
        some InvError.sizeLimitExceeded →
      ∃ rest item,
        (VerifyAndRunGatherers reg pol perItemKB totalKB order).items =
          rest ++ [item] ∧
        VerifyInventoryDataSize perItemKB totalKB item
          ((VerifyAndRunGatherers reg pol perItemKB totalKB order).items) = false) ∧
    ((VerifyAndRunGatherers reg pol perItemKB totalKB order).err.isSome = true →
      ApplyInventoryPolicy reg (.ok pol) perItemKB totalKB order convert = []) := by
  refine ⟨?_, ?_, ?_⟩
  · obtain ⟨p, hp, hi, hpfx⟩ :=
      runGatherers_items_invoked reg pol perItemKB totalKB order [] []
    have ht : (VerifyAndRunGatherers reg pol perItemKB totalKB order).trace = p := by
      simpa [VerifyAndRunGatherers] using hp
    have hit : (VerifyAndRunGatherers reg pol perItemKB totalKB order).items =
        p.filterMap (invokeResult reg pol) := by
      simpa [VerifyAndRunGatherers] using hi
    rw [ht, hit]
  · intro h
    exact runGatherers_sizeLimit reg pol perItemKB totalKB order [] [] h
  · intro h
    simp only [ApplyInventoryPolicy]
    obtain ⟨e, he⟩ := Option.isSome_iff_exists.mp h
    rw [he]

set_option maxRecDepth 8192 in
/-- C1 witness: the amended theorem applied to the concrete aggregate
size-limit breach — the returned batch ends with the offending item,
fails the size verification, and no upload call happens. -/
theorem claim_C1_witness :
    (∃ rest item,
      (VerifyAndRunGatherers regBig polA 1 1 ["a", "b"]).items = rest ++ [item] ∧
      VerifyInventoryDataSize 1 1 item
        ((VerifyAndRunGatherers regBig polA 1 1 ["a", "b"]).items) = false) ∧
    ApplyInventoryPolicy regBig (.ok polA) 1 1 ["a", "b"] (fun xs => .ok xs) = [] :=
  ⟨(claim_C1_amended regBig polA 1 1 ["a", "b"] (fun xs => .ok xs)).2.1 (by decide),
   (claim_C1_amended regBig polA 1 1 ["a", "b"] (fun xs => .ok xs)).2.2 (by decide)⟩

/-! ## Claim C3 -/

/-- C3 counterexample: the loop of `VerifyAndRunGatherers` ranges over a
Go map, so the iteration order is an arbitrary permutation of the
policy's key set; two runs over the same two-gatherer policy may see the
two valid iteration orders and then invoke the gatherers in different
orders, refuting the fixed declared-order claim. -/
theorem claim_C3_counterexample :
    (["a", "b"] : List String).Perm (polA.map Prod.fst) ∧
    (["b", "a"] : List String).Perm (polA.map Prod.fst) ∧
    (VerifyAndRunGatherers regB polA 1 1 ["a", "b"]).trace = ["a", "b"] ∧
    (VerifyAndRunGatherers regB polA 1 1 ["b", "a"]).trace = ["b", "a"] ∧
    (VerifyAndRunGatherers regB polA 1 1 ["a", "b"]).trace ≠
      (VerifyAndRunGatherers regB polA 1 1 ["b", "a"]).trace := by
  decide

/-- Helper: the invocation trace of the gatherer loop extends the
accumulator by a prefix of the remaining iteration order. -/
theorem runGatherers_trace_pfx (reg : GathererRegistry) (pol : InvPolicy)
    (perItemKB totalKB : Nat) :
    ∀ (order : List String) (items : List InvItem) (tr : List String),
      ∃ p, (runGatherers reg pol perItemKB totalKB order items tr).trace = tr ++ p ∧
        p <+: order := by
  intro order
  induction order with
  | nil => intro items tr; exact ⟨[], by simp [runGatherers], ⟨[], rfl⟩⟩
  | cons name rest ih =>
    intro items tr
    simp only [runGatherers]
    cases hg : lookupAL reg name with
    | none => exact ⟨[], by simp, ⟨name :: rest, rfl⟩⟩
    | some g =>
      cases hr : g ((lookupAL pol name).getD "") with
      | error cause => exact ⟨[name], by simp [hr], ⟨rest, rfl⟩⟩
      | ok item =>
        cases hv : VerifyInventoryDataSize perItemKB totalKB item (items ++ [item]) with
        | false => exact ⟨[name], by simp [hr, hv], ⟨rest, rfl⟩⟩
        | true =>
          obtain ⟨p, hp, hpfx⟩ := ih (items ++ [item]) (tr ++ [name])
          refine ⟨name :: p, by simp [hr, hv, hp], ?_⟩
          obtain ⟨t, ht⟩ := hpfx
          exact ⟨t, by simp [← ht]⟩

/-- C3 (amended): the gatherers are invoked strictly sequentially in the
map-iteration order — an arbitrary permutation of the policy's key set
rather than a canonical declared order — so the invocation sequence is a
prefix of that iteration order and, the iteration order holding no
duplicate key, no gatherer is invoked twice; across runs the order may
vary with the map iteration. -/
theorem claim_C3_amended (reg : GathererRegistry) (pol : InvPolicy)
    (perItemKB totalKB : Nat) (order : List String) :
    (VerifyAndRunGatherers reg pol perItemKB totalKB order).trace <+: order ∧
    (order.Nodup → (VerifyAndRunGatherers reg pol perItemKB totalKB order).trace.Nodup) := by
  obtain ⟨p, hp, hpfx⟩ := runGatherers_trace_pfx reg pol perItemKB totalKB order [] []
  have htr : (VerifyAndRunGatherers reg pol perItemKB totalKB order).trace = p := by
    simpa [VerifyAndRunGatherers] using hp
  refine ⟨by rw [htr]; exact hpfx, fun hnd => ?_⟩
  rw [htr]
  exact hnd.sublist hpfx.sublist

/-- C3 witness: the amended theorem applied to a concrete run with a
duplicate-free iteration order. -/
theorem claim_C3_witness :
    (VerifyAndRunGatherers regB polA 1 1 ["a", "b"]).trace <+: ["a", "b"] ∧
    (VerifyAndRunGatherers regB polA 1 1 ["a", "b"]).trace.Nodup :=
  ⟨(claim_C3_amended regB polA 1 1 ["a", "b"]).1,
   (claim_C3_amended regB polA 1 1 ["a", "b"]).2 (by decide)⟩

/-! ## Claim C10 -/

/-- C10: in `ApplyInventoryPolicy`, a failure of
`ConvertToSsmInventoryItems` does not skip the upload — `SendDataToSSM`
is still called, with the zero-valued item slice; and the upload is
skipped exactly when the policy cannot be obtained from the file (absent,
unreadable, or undecodable) or the gathering run itself returns an
error. -/
theorem claim_C10 (reg : GathererRegistry) (perItemKB totalKB : Nat)
    (order : List String) (convert : List InvItem → Except String (List String)) :
    (∀ pol e,
      (VerifyAndRunGatherers reg pol perItemKB totalKB order).err = none →
      convert (VerifyAndRunGatherers reg pol perItemKB totalKB order).items = .error e →
      ApplyInventoryPolicy reg (.ok pol) perItemKB totalKB order convert =
        [.sendDataToSSM []]) ∧
    (∀ doc, ApplyInventoryPolicy reg doc perItemKB totalKB order convert = [] ↔
      (doc = .absent ∨ doc = .readError ∨ doc = .decodeError ∨
       ∃ pol, doc = .ok pol ∧
         (VerifyAndRunGatherers reg pol perItemKB totalKB order).err.isSome = true)) := by
  constructor
  · intro pol e herr hconv
    simp only [ApplyInventoryPolicy]
    rw [herr, hconv]
  · intro doc
    cases doc with
    | absent => simp [ApplyInventoryPolicy]
    | readError => simp [ApplyInventoryPolicy]
    | decodeError => simp [ApplyInventoryPolicy]
    | ok pol =>
      simp only [ApplyInventoryPolicy]
      cases herr : (VerifyAndRunGatherers reg pol perItemKB totalKB order).err with
      | none => simp [herr]
      | some e => simp [herr]

/-- C10 witness: with both gatherers registered and a failing converter,
the upload call still happens, carrying the zero-valued item slice. -/
theorem claim_C10_witness :
    ApplyInventoryPolicy regB (.ok polA) 1 1 ["a", "b"] (fun _ => .error "conv") =
      [.sendDataToSSM []] :=
  (claim_C10 regB 1 1 ["a", "b"] (fun _ => .error "conv")).1 polA "conv"
    (by decide) rfl

/-! ## Claim C5 -/

/-- C5: the compiled state populates at most one plugin collection: a
present non-empty `runtimeConfig` yields the name-keyed map and an empty
sequence; otherwise present non-empty `mainSteps` yields the sequence and
an empty map; otherwise both stay empty while compilation still returns a
document state (a no-op document, not an error — the embedding is a total
function). -/
theorem claim_C5 (cfg : AgentConfig) (payload : SendCommandPayload)
    (rawData : InstanceAssociation) (now : GoTime) :
    (hasEntries payload.documentContent.runtimeConfig = true →
      (InitializeDocumentState cfg payload rawData now).1.pluginsInformation ≠ [] ∧
      (InitializeDocumentState cfg payload rawData now).1.instancePluginsInformation = []) ∧
    (hasEntries payload.documentContent.runtimeConfig = false →
     hasEntries payload.documentContent.mainSteps = true →
      (InitializeDocumentState cfg payload rawData now).1.instancePluginsInformation ≠ [] ∧
      (InitializeDocumentState cfg payload rawData now).1.pluginsInformation = []) ∧
    (hasEntries payload.documentContent.runtimeConfig = false →
     hasEntries payload.documentContent.mainSteps = false →
      (InitializeDocumentState cfg payload rawData now).1.pluginsInformation = [] ∧
      (InitializeDocumentState cfg payload rawData now).1.instancePluginsInformation = []) := by
  refine ⟨?_, ?_, ?_⟩
  · intro h1
    cases hrc : payload.documentContent.runtimeConfig with
    | none => rw [hrc] at h1; simp [hasEntries] at h1
    | some l =>
      have hl : l ≠ [] := by
        rw [hrc] at h1
        simpa [hasEntries] using h1
      refine ⟨?_, ?_⟩
      · simp only [InitializeDocumentState, buildPluginsInfo]
        rw [if_pos h1, hrc]
        simpa using hl
      · simp only [InitializeDocumentState, buildPluginsInfo]
        rw [if_pos h1]
  · intro h1 h2
    cases hms : payload.documentContent.mainSteps with
    | none => rw [hms] at h2; simp [hasEntries] at h2
    | some l =>
      have hl : l ≠ [] := by
        rw [hms] at h2
        simpa [hasEntries] using h2
      refine ⟨?_, ?_⟩
      · simp only [InitializeDocumentState, buildPluginsInfo]
        rw [if_neg (by simp [h1]), if_pos h2, hms]
        simpa using hl
      · simp only [InitializeDocumentState, buildPluginsInfo]
        rw [if_neg (by simp [h1]), if_pos h2]
  · intro h1 h2
    refine ⟨?_, ?_⟩ <;>
    · simp only [InitializeDocumentState, buildPluginsInfo]
      rw [if_neg (by simp [h1]), if_neg (by simp [h2])]

/-- C5 witness: the theorem's second branch applied to the scenario
payload (no runtime config, one main step). -/
theorem claim_C5_witness :
    (InitializeDocumentState cfgA payloadA rawA tA).1.instancePluginsInformation ≠ [] ∧
    (InitializeDocumentState cfgA payloadA rawA tA).1.pluginsInformation = [] :=
  (claim_C5 cfgA payloadA rawA tA).2.1 (by decide) (by decide)

/-! ## Claim C6 -/

/-- C6: for a document with populated `mainSteps` and empty
`runtimeConfig`, the compiled sequence has the length of `mainSteps`,
preserves document order, and at every position the unit's id is the
step's declared name while the unit's name is the step's action. -/
theorem claim_C6 (cfg : AgentConfig) (payload : SendCommandPayload)
    (rawData : InstanceAssociation) (now : GoTime)
    (steps : List InstancePluginConfig)
    (hrc : hasEntries payload.documentContent.runtimeConfig = false)
    (hms : payload.documentContent.mainSteps = some steps)
    (hne : steps ≠ []) :
    (InitializeDocumentState cfg payload rawData now).1.instancePluginsInformation.length =
      steps.length ∧
    ∀ i : Nat,
      ((InitializeDocumentState cfg payload rawData now).1.instancePluginsInformation.get?
          i).map PluginState.id = (steps.get? i).map InstancePluginConfig.name ∧
      ((InitializeDocumentState cfg payload rawData now).1.instancePluginsInformation.get?
          i).map PluginState.name = (steps.get? i).map InstancePluginConfig.action := by
  have hms2 : hasEntries payload.documentContent.mainSteps = true := by
    rw [hms]
    simpa [hasEntries] using hne
  have hips : (InitializeDocumentState cfg payload rawData now).1.instancePluginsInformation =
      steps.map (fun step =>
        ({ configuration :=
             { settings := step.settings,
               properties := step.inputs,
               outputS3BucketName := payload.outputS3BucketName,
               outputS3KeyPrefixVal := BuildS3Path (joinPath [payload.outputS3KeyPrefixVal,
                 payload.commandID, (newDocumentInfo rawData payload now).1.instanceID])
                 step.action,
               orchestrationDirectory := BuildPath (joinPath [joinPath
                 [cfg.defaultDataStorePath, (newDocumentInfo rawData payload now).1.instanceID,
                  cfg.defaultDocumentRootDirName, cfg.orchestrationRootDirName],
                 (newDocumentInfo rawData payload now).1.documentID]) step.action,
               messageId := (newDocumentInfo rawData payload now).1.messageID,
               bookKeepingFileName := (newDocumentInfo rawData payload now).1.documentID },
           hasExecuted := false,
           id := step.name,
           name := step.action } : PluginState)) := by
    simp only [InitializeDocumentState, buildPluginsInfo]
    rw [if_neg (by simp [hrc]), if_pos hms2, hms]
    rfl
  rw [hips]
  refine ⟨by simp, fun i => ⟨?_, ?_⟩⟩ <;>
  · rw [List.get?_map]
    cases steps.get? i <;> rfl

/-- C6 witness: the theorem applied to the scenario payload with its one
main step. -/
theorem claim_C6_witness :
    (InitializeDocumentState cfgA payloadA rawA tA).1.instancePluginsInformation.length = 1 := by
  have h := claim_C6 cfgA payloadA rawA tA [stepA] (by decide) rfl (by decide)
  simpa using h.1

/-! ## Claim C2 -/

/-- C2 counterexample: for the scenario association (`assoc-1`, `i-1`,
one step `step1`/`aws:runShellScript`, bucket `b`, key prefix `p`), the
compiled unit's output key prefix is `p/assoc-1/i-1/aws:runShellScript`:
the middle segment is the command id (= association id, `parser.go`
lines 54 and 97), not the document id `assoc-1.<runId>`, so the claimed
prefix `p/assoc-1.<runId>/i-1/aws:runShellScript` is wrong. -/
theorem claim_C2_counterexample :
    ParseDocumentWithParams rawA (fun _ => some contentA) (fun p _ => .ok p) =
      .ok payloadA ∧
    ((InitializeDocumentState cfgA payloadA rawA tA).1.instancePluginsInformation.map
      (fun u => (u.id, u.name, u.configuration.outputS3KeyPrefixVal))) =
      [("step1", "aws:runShellScript", "p/assoc-1/i-1/aws:runShellScript")] ∧
    ("p/assoc-1/i-1/aws:runShellScript" : String) ≠
      "p/assoc-1." ++ ToIsoDashUTC tA ++ "/i-1/aws:runShellScript" := by
  decide

/-- C2 (amended): the scenario's compiled sequence has exactly one unit,
its id is `step1`, its name is `aws:runShellScript`, and its output S3
key prefix is the path-join `p/assoc-1/i-1/aws:runShellScript` — the
association id, not the run-stamped document id, is the middle segment —
whatever the generated run timestamp is. -/
theorem claim_C2_amended (now : GoTime) :
    ((InitializeDocumentState cfgA payloadA rawA now).1.instancePluginsInformation.map
      (fun u => (u.id, u.name, u.configuration.outputS3KeyPrefixVal))) =
      [("step1", "aws:runShellScript", "p/assoc-1/i-1/aws:runShellScript")] := rfl

/-- C2 witness: the amended theorem applied at the fixed clock reading. -/
theorem claim_C2_witness :
    ((InitializeDocumentState cfgA payloadA rawA tA).1.instancePluginsInformation.map
      (fun u => (u.id, u.name, u.configuration.outputS3KeyPrefixVal))) =
      [("step1", "aws:runShellScript", "p/assoc-1/i-1/aws:runShellScript")] :=
  claim_C2_amended tA

/-! ## Claim C4 -/

/-- C4 counterexample: compiling the scenario message mutates it — the
generated document id is written into `rawData.DocumentID` (`parser.go`
line 127), so the association record after `InitializeDocumentState`
differs from the one received. -/
theorem claim_C4_counterexample :
    (InitializeDocumentState cfgA payloadA rawA tA).2 ≠ rawA := by
  decide

/-- C4 (amended): the compiler reads the raw association message except
for exactly one write: every externally supplied field (the association
summary, creation timestamp, run-once flag and document body) is left
unchanged, while the `DocumentID` bookkeeping field is overwritten with
the generated document id. -/
theorem claim_C4_amended (cfg : AgentConfig) (payload : SendCommandPayload)
    (rawData : InstanceAssociation) (now : GoTime) :
    (InitializeDocumentState cfg payload rawData now).2.association =
      rawData.association ∧
    (InitializeDocumentState cfg payload rawData now).2.createDate =
      rawData.createDate ∧
    (InitializeDocumentState cfg payload rawData now).2.runOnce = rawData.runOnce ∧
    (InitializeDocumentState cfg payload rawData now).2.document = rawData.document ∧
    (InitializeDocumentState cfg payload rawData now).2.documentID =
      generateDocumentId rawData.association.associationId (ToIsoDashUTC now) :=
  ⟨rfl, rfl, rfl, rfl, rfl⟩

/-- C4 witness: the amended theorem applied to the scenario compile. -/
theorem claim_C4_witness :
    (InitializeDocumentState cfgA payloadA rawA tA).2.documentID =
      generateDocumentId rawA.association.associationId (ToIsoDashUTC tA) :=
  (claim_C4_amended cfgA payloadA rawA tA).2.2.2.2

/-! ## Claim C8 -/

/-- Helper: the zero-padded digit field has exactly its width. -/
theorem padDigitsAux_length (w n : Nat) : (padDigitsAux w n).length = w := by
  induction w generalizing n with
  | zero => rfl
  | succ w ih => simp [padDigitsAux, ih]

/-- Helper: the ISO-dash timestamp always renders to 24 characters. -/
theorem toIsoDashUTC_data_length (t : GoTime) : (ToIsoDashUTC t).data.length = 24 := by
  simp [ToIsoDashUTC, padDigitsAux_length]

/-- Helper: the ISO-dash timestamp has string length 24. -/
theorem toIsoDashUTC_length (t : GoTime) : (ToIsoDashUTC t).length = 24 :=
  toIsoDashUTC_data_length t

/-- Helper: appending strings appends their character data. -/
theorem string_data_append (s t : String) : (s ++ t).data = s.data ++ t.data := by
  cases s
  cases t
  rfl

/-- Helper: strings with the same character data are equal. -/
theorem string_data_inj {s t : String} (h : s.data = t.data) : s = t := by
  cases s
  cases t
  exact congrArg String.mk h

/-- C8: document id generation is injective — two runs whose (association
id, rendered run timestamp) pairs differ get different document ids,
because the run timestamp renders at a fixed width of 24 characters — and
stable within one compile: the `DocumentID` stored in the generated
document information is exactly its own association id joined to its own
`RunID` by a dot, both computed from the single clock reading. -/
theorem claim_C8 :
    (∀ (a1 : String) (t1 : GoTime) (a2 : String) (t2 : GoTime),
      (a1, ToIsoDashUTC t1) ≠ (a2, ToIsoDashUTC t2) →
      generateDocumentId a1 (ToIsoDashUTC t1) ≠ generateDocumentId a2 (ToIsoDashUTC t2)) ∧
    (∀ (rawData : InstanceAssociation) (payload : SendCommandPayload) (now : GoTime),
      ((newDocumentInfo rawData payload now).1).documentID =
        generateDocumentId ((newDocumentInfo rawData payload now).1).associationID
          ((newDocumentInfo rawData payload now).1).runID) := by
  constructor
  · intro a1 t1 a2 t2 hne heq
    apply hne
    have hd : (generateDocumentId a1 (ToIsoDashUTC t1)).data =
        (generateDocumentId a2 (ToIsoDashUTC t2)).data := congrArg String.data heq
    have hdot : (".".data : List Char) = ['.'] := rfl
    simp only [generateDocumentId, string_data_append, hdot, List.append_assoc] at hd
    have hinj := List.append_inj' hd (by
      simp [toIsoDashUTC_data_length, toIsoDashUTC_length])
    have ha : a1 = a2 := string_data_inj hinj.1
    have hr : ToIsoDashUTC t1 = ToIsoDashUTC t2 := by
      apply string_data_inj
      have := hinj.2
      simpa using this
    rw [ha, hr]
  · intro rawData payload now
    rfl

/-- C8 witness: two distinct association ids with the same clock reading
receive distinct document ids. -/
theorem claim_C8_witness :
    generateDocumentId "a" (ToIsoDashUTC tA) ≠ generateDocumentId "b" (ToIsoDashUTC tA) :=
  claim_C8.1 "a" tA "b" tA (by decide)

/-! ## Claims C7 and C9: parameter resolution -/

/-- Helper: lookup across an appended association list tries the left
part first. -/
theorem lookupAL_append {α : Type} (l1 l2 : List (String × α)) (k : String) :
    lookupAL (l1 ++ l2) k =
      match lookupAL l1 k with
      | some v => some v
      | none => lookupAL l2 k := by
  induction l1 with
  | nil => rfl
  | cons p rest ih =>
    obtain ⟨k0, v0⟩ := p
    by_cases h : k0 = k <;> simp [lookupAL, h, ih]

/-- Helper: default filling never disturbs an existing binding. -/
theorem addDefaults_preserve (defs : List (String × Parameter)) :
    ∀ (acc : List (String × ParamValue)) (k : String) (x : ParamValue),
      lookupAL acc k = some x → lookupAL (addDefaults acc defs) k = some x := by
  induction defs with
  | nil => intro acc k x h; exact h
  | cons p rest ih =>
    intro acc k x h
    obtain ⟨k0, v0⟩ := p
    cases hs : (lookupAL acc k0).isSome with
    | true => simpa [addDefaults, hs] using ih acc k x h
    | false =>
      simp only [addDefaults, hs, Bool.false_eq_true, if_false]
      apply ih
      rw [lookupAL_append, h]

/-- Helper: default filling adds no binding for an undeclared key. -/
theorem addDefaults_of_none (defs : List (String × Parameter)) :
    ∀ (acc : List (String × ParamValue)) (k : String),
      lookupAL defs k = none →
      lookupAL (addDefaults acc defs) k = lookupAL acc k := by
  induction defs with
  | nil => intro acc k _; rfl
  | cons p rest ih =>
    intro acc k h
    obtain ⟨k0, v0⟩ := p
    have hk0 : k0 ≠ k := by
      intro e
      simp [lookupAL, e] at h
    have hrest : lookupAL rest k = none := by
      simpa [lookupAL, hk0] using h
    cases hs : (lookupAL acc k0).isSome with
    | true => simpa [addDefaults, hs] using ih acc k hrest
    | false =>
      simp only [addDefaults, hs, Bool.false_eq_true, if_false]
      rw [ih _ _ hrest, lookupAL_append]
      cases hacc : lookupAL acc k <;> simp [lookupAL, hk0]

/-- Helper: a declared parameter with no binding yet receives its default
value during default filling. -/
theorem addDefaults_insert (defs : List (String × Parameter)) :
    ∀ (acc : List (String × ParamValue)) (k : String) (d : Parameter),
      lookupAL acc k = none → lookupAL defs k = some d →
      lookupAL (addDefaults acc defs) k = some (ParamValue.dflt d.defaultVal) := by
  induction defs with
  | nil =>
    intro acc k d _ hc
    simp [lookupAL] at hc
  | cons p rest ih =>
    intro acc k d hacc hdefs
    obtain ⟨k0, v0⟩ := p
    by_cases hk : k0 = k
    · subst hk
      have hd : v0 = d := by simpa [lookupAL] using hdefs
      have hs : (lookupAL acc k0).isSome = false := by simp [hacc]
      simp only [addDefaults, hs, Bool.false_eq_true, if_false]
      apply addDefaults_preserve
      rw [lookupAL_append, hacc]
      simp [lookupAL, hd]
    · have hdefs2 : lookupAL rest k = some d := by
        simpa [lookupAL, hk] using hdefs
      cases hs : (lookupAL acc k0).isSome with
      | true => simpa [addDefaults, hs] using ih acc k d hacc hdefs2
      | false =>
        simp only [addDefaults, hs, Bool.false_eq_true, if_false]
        apply ih
        · rw [lookupAL_append, hacc]
          simp [lookupAL, hk]
        · exact hdefs2

/-- Helper: `parseParameters` completes (no panic) whenever every
supplied value list is non-empty. -/
theorem parseParameters_isSome (paramsDef : List (String × Parameter)) :
    ∀ supplied : List (String × List String),
      (∀ p ∈ supplied, p.2 ≠ []) →
      (parseParameters supplied paramsDef).isSome = true := by
  intro supplied
  induction supplied with
  | nil => intro _; rfl
  | cons p rest ih =>
    intro h
    obtain ⟨name, vals⟩ := p
    have hrest := ih (fun q hq => h q (List.mem_cons_of_mem _ hq))
    have hvals : vals ≠ [] := h (name, vals) (List.mem_cons_self _ _)
    simp only [parseParameters]
    split
    · exact hrest
    · split
      · cases vals with
        | nil => exact absurd rfl hvals
        | cons v vs => simpa using hrest
      · split
        · simpa using hrest
        · exact hrest

/-- Helper: a key with no declaration never appears in the result of
`parseParameters`. -/
theorem parseParameters_undeclared (paramsDef : List (String × Parameter))
    (k : String) (h : lookupAL paramsDef k = none) :
    ∀ (supplied : List (String × List String)) (ps : List (String × ParamValue)),
      parseParameters supplied paramsDef = some ps → lookupAL ps k = none := by
  intro supplied
  induction supplied with
  | nil =>
    intro ps hp
    cases hp
    rfl
  | cons p rest ih =>
    intro ps hp
    obtain ⟨name, vals⟩ := p
    simp only [parseParameters] at hp
    split at hp
    · exact ih ps hp
    · rename_i defn hl
      have hk : name ≠ k := by
        intro e
        subst e
        rw [h] at hl
        cases hl
      split at hp
      · cases vals with
        | nil => cases hp
        | cons v vs =>
          obtain ⟨ps0, hps0, hcons⟩ := Option.map_eq_some'.mp hp
          subst hcons
          simp only [lookupAL, if_neg hk]
          exact ih ps0 hps0
      · split at hp
        · obtain ⟨ps0, hps0, hcons⟩ := Option.map_eq_some'.mp hp
          subst hcons
          simp only [lookupAL, if_neg hk]
          exact ih ps0 hps0
        · exact ih ps hp

/-- Helper: a key with no supplied value never appears in the result of
`parseParameters`. -/
theorem parseParameters_not_supplied (paramsDef : List (String × Parameter))
    (k : String) :
    ∀ (supplied : List (String × List String)) (ps : List (String × ParamValue)),
      lookupAL supplied k = none →
      parseParameters supplied paramsDef = some ps → lookupAL ps k = none := by
  intro supplied
  induction supplied with
  | nil =>
    intro ps _ hp
    cases hp
    rfl
  | cons p rest ih =>
    intro ps hsup hp
    obtain ⟨name, vals⟩ := p
    have hk : name ≠ k := by
      intro e
      simp [lookupAL, e] at hsup
    have hsup2 : lookupAL rest k = none := by
      simpa [lookupAL, hk] using hsup
    simp only [parseParameters] at hp
    split at hp
    · exact ih ps hsup2 hp
    · split at hp
      · cases vals with
        | nil => cases hp
        | cons v vs =>
          obtain ⟨ps0, hps0, hcons⟩ := Option.map_eq_some'.mp hp
          subst hcons
          simp only [lookupAL, if_neg hk]
          exact ih ps0 hsup2 hps0
      · split at hp
        · obtain ⟨ps0, hps0, hcons⟩ := Option.map_eq_some'.mp hp
          subst hcons
          simp only [lookupAL, if_neg hk]
          exact ih ps0 hsup2 hps0
        · exact ih ps hsup2 hp

/-- Helper: appending an undeclared supplied parameter changes nothing:
it is dropped without an entry and without failing. -/
theorem parseParameters_drop (paramsDef : List (String × Parameter))
    (k : String) (vs : List String) (h : lookupAL paramsDef k = none) :
    ∀ supplied : List (String × List String),
      parseParameters (supplied ++ [(k, vs)]) paramsDef =
        parseParameters supplied paramsDef := by
  intro supplied
  induction supplied with
  | nil => simp [parseParameters, h]
  | cons p rest ih =>
    obtain ⟨name, vals⟩ := p
    simp only [List.cons_append, parseParameters, List.append_eq, ih]

/-! The resulting binding table (claims C7, C9). -/

/-- C7: the binding table's key set is a subset of the declared keys;
every declared parameter with no supplied value ends up bound to its
default; an undeclared key is never bound; and a supplied-but-undeclared
parameter is dropped without producing an entry and without failing. -/
theorem claim_C7 (supplied : List (String × List String))
    (paramsDef : List (String × Parameter)) :
    (∀ out, resolveParams supplied paramsDef = some out →
      (∀ k, (lookupAL out k).isSome = true → (lookupAL paramsDef k).isSome = true) ∧
      (∀ k d, lookupAL paramsDef k = some d → lookupAL supplied k = none →
        lookupAL out k = some (ParamValue.dflt d.defaultVal)) ∧
      (∀ k, lookupAL paramsDef k = none → lookupAL out k = none)) ∧
    (∀ k vs, lookupAL paramsDef k = none →
      resolveParams (supplied ++ [(k, vs)]) paramsDef =
        resolveParams supplied paramsDef) := by
  constructor
  · intro out hout
    obtain ⟨ps, hps, hadd⟩ := Option.map_eq_some'.mp hout
    subst hadd
    refine ⟨?_, ?_, ?_⟩
    · intro k hk
      by_contra hnone
      have hdecl : lookupAL paramsDef k = none := by
        cases hd : lookupAL paramsDef k with
        | none => rfl
        | some d => rw [hd] at hnone; simp at hnone
      rw [addDefaults_of_none paramsDef ps k hdecl,
        parseParameters_undeclared paramsDef k hdecl supplied ps hps] at hk
      cases hk
    · intro k d hdecl hsup
      exact addDefaults_insert paramsDef ps k d
        (parseParameters_not_supplied paramsDef k supplied ps hsup hps) hdecl
    · intro k hdecl
      rw [addDefaults_of_none paramsDef ps k hdecl]
      exact parseParameters_undeclared paramsDef k hdecl supplied ps hps
  · intro k vs hdecl
    simp only [resolveParams, parseParameters_drop paramsDef k vs hdecl supplied]

/-- C7 witness: a declared parameter with a default and no supplied value
appears in the resolved table with that default. -/
theorem claim_C7_witness :
    lookupAL ((resolveParams [] [("x", ⟨ParamTypeString, "dv"⟩)]).getD []) "x" =
      some (ParamValue.dflt "dv") :=
  ((claim_C7 [] [("x", ⟨ParamTypeString, "dv"⟩)]).1
    (addDefaults [] [("x", ⟨ParamTypeString, "dv"⟩)]) rfl).2.1 "x"
    ⟨ParamTypeString, "dv"⟩ rfl rfl

/-! Claim C9. -/

/-- C9: `parseParameters` takes the first element of a supplied value
list for a scalar parameter without a bounds check: it completes whenever
every supplied value list is non-empty, and it panics on a declared
scalar parameter supplied with an empty value list. -/
theorem claim_C9 :
    (∀ (supplied : List (String × List String)) (paramsDef : List (String × Parameter)),
      (∀ p ∈ supplied, p.2 ≠ []) →
      (parseParameters supplied paramsDef).isSome = true) ∧
    parseParameters [("x", [])] [("x", ⟨ParamTypeString, "d"⟩)] = none :=
  ⟨fun supplied paramsDef h => parseParameters_isSome paramsDef supplied h, by decide⟩

/-- C9 witness: the totality half applied to a non-empty supplied list. -/
theorem claim_C9_witness :
    (parseParameters [("x", ["v"])] [("x", ⟨ParamTypeString, "d"⟩)]).isSome = true :=
  claim_C9.1 [("x", ["v"])] [("x", ⟨ParamTypeString, "d"⟩)] (by decide)


